import Mathlib

/-!
Verification development for a Rust HTML main-content extractor
(trafilatura-style).  The definitions below are a shallow embedding of the
program's source: the DOM is a rose tree, CSS selectors are predicates over
(document, path, node), strings are lists of characters, and every fallible
Rust function returns an explicit result value.  Rust `usize` string lengths
are modelled as character counts and `f64` ratios as exact rationals.
-/

attribute [local semireducible] Rat.mul Rat.inv Rat.sub Rat.add

/-! ## String primitives (models of Rust `str` operations and the regexes) -/

def isWs (c : Char) : Bool :=
  c = ' ' || c = '\t' || c = '\n' || c = '\r' || c = '\x0b' || c = '\x0c'

def listStarts : List Char → List Char → Bool
  | _, [] => true
  | [], _ :: _ => false
  | c :: cs, p :: ps => c = p && listStarts cs ps

def listHasSub : List Char → List Char → Bool
  | [], pat => listStarts [] pat
  | c :: rest, pat => listStarts (c :: rest) pat || listHasSub rest pat

/-- Model of Rust `str::contains` (substring containment). -/
def sContains (s pat : String) : Bool := listHasSub s.data pat.data

/-- Model of Rust `str::starts_with`. -/
def sStarts (s pat : String) : Bool := listStarts s.data pat.data

def trimChars (l : List Char) : List Char :=
  ((l.dropWhile isWs).reverse.dropWhile isWs).reverse

/-- Model of Rust `str::trim`. -/
def sTrim (s : String) : String := ⟨trimChars s.data⟩

/-- Model of Rust `str::to_lowercase` (ASCII range, which is all the source compares). -/
def sLower (s : String) : String := ⟨s.data.map Char.toLower⟩

/-- Model of Rust `str::eq_ignore_ascii_case`. -/
def eqCI (a b : String) : Bool := sLower a = sLower b

def splitWsAux : List Char → List Char → List String
  | [], acc => if acc = [] then [] else [⟨acc.reverse⟩]
  | c :: rest, acc =>
      if isWs c then
        (if acc = [] then splitWsAux rest [] else ⟨acc.reverse⟩ :: splitWsAux rest [])
      else splitWsAux rest (c :: acc)

/-- Model of Rust `str::split_whitespace`. -/
def splitWs (s : String) : List String := splitWsAux s.data []

def replAux : Nat → List Char → List Char → List Char → List Char
  | 0, s, _, _ => s
  | _ + 1, [], _, _ => []
  | fuel + 1, c :: rest, pat, rep =>
      if pat ≠ [] && listStarts (c :: rest) pat then
        rep ++ replAux fuel ((c :: rest).drop pat.length) pat rep
      else
        c :: replAux fuel rest pat rep

/-- Model of Rust `str::replace` (all non-overlapping occurrences, left to right). -/
def sReplace (s pat rep : String) : String :=
  ⟨replAux s.data.length s.data pat.data rep.data⟩

def stripUrlsAux : Nat → List Char → List Char
  | 0, s => s
  | _ + 1, [] => []
  | fuel + 1, c :: rest =>
      if listStarts (c :: rest) "http://".data || listStarts (c :: rest) "https://".data then
        stripUrlsAux fuel ((c :: rest).dropWhile (fun ch => !isWs ch))
      else
        c :: stripUrlsAux fuel rest

/-- Model of `Regex::new(r"https?://\S+")` used with `replace_all(_, "")`. -/
def stripUrls (s : String) : String := ⟨stripUrlsAux s.data.length s.data⟩

def stripPathParensAux : Nat → List Char → List Char
  | 0, s => s
  | _ + 1, [] => []
  | fuel + 1, c :: rest =>
      if c = '(' then
        match rest.dropWhile isWs with
        | '/' :: more =>
            match more.dropWhile (fun ch => ch ≠ ')') with
            | ')' :: after => stripPathParensAux fuel after
            | _ => c :: stripPathParensAux fuel rest
        | _ => c :: stripPathParensAux fuel rest
      else c :: stripPathParensAux fuel rest

/-- Model of `Regex::new(r"\(\s*/[^\)]*\)")` used with `replace_all(_, "")`. -/
def stripPathParens (s : String) : String := ⟨stripPathParensAux s.data.length s.data⟩

def stripEmptyParensAux : Nat → List Char → List Char
  | 0, s => s
  | _ + 1, [] => []
  | fuel + 1, c :: rest =>
      if c = '(' then
        match rest.dropWhile isWs with
        | ')' :: after => stripEmptyParensAux fuel after
        | _ => c :: stripEmptyParensAux fuel rest
      else c :: stripEmptyParensAux fuel rest

/-- Model of `Regex::new(r"\(\s*\)")` used with `replace_all(_, "")`. -/
def stripEmptyParens (s : String) : String := ⟨stripEmptyParensAux s.data.length s.data⟩

def collapseWsAux : Bool → List Char → List Char
  | _, [] => []
  | inRun, c :: rest =>
      if isWs c then
        (if inRun then collapseWsAux true rest else ' ' :: collapseWsAux true rest)
      else c :: collapseWsAux false rest

/-- Model of `Regex::new(r"\s+")` used with `replace_all(_, " ")`. -/
def collapseWs (s : String) : String := ⟨collapseWsAux false s.data⟩

def isNl (c : Char) : Bool := c = '\n' || c = '\r'

def collapseNlAux : Bool → List Char → List Char
  | _, [] => []
  | inRun, c :: rest =>
      if isNl c then
        (if inRun then collapseNlAux true rest else '\n' :: collapseNlAux true rest)
      else c :: collapseNlAux false rest

/-- Model of `Regex::new(r"(\r\n|\r|\n)+")` used with `replace_all(_, "\n")`. -/
def collapseNl (s : String) : String := ⟨collapseNlAux false s.data⟩

def collapseNl3Aux : Nat → List Char → List Char
  | 0, s => s
  | _ + 1, [] => []
  | fuel + 1, c :: rest =>
      if c = '\n' then
        let run := 1 + (rest.takeWhile (fun ch => ch = '\n')).length
        let after := rest.dropWhile (fun ch => ch = '\n')
        (if 3 ≤ run then ['\n', '\n'] else List.replicate run '\n') ++
          collapseNl3Aux fuel after
      else c :: collapseNl3Aux fuel rest

/-- Model of `Regex::new(r"\n{3,}")` used with `replace_all(_, "\n\n")`. -/
def collapseNl3 (s : String) : String := ⟨collapseNl3Aux s.data.length s.data⟩

/-! ## DOM model

A parsed document is a rose tree of element and text nodes, mirroring the
`scraper`/`kuchiki` trees the source operates on.  `NodeList` is a dedicated
list type so that mutual structural recursion stays kernel-reducible. -/

mutual
inductive Node where
  | text (s : String)
  | elem (tag : String) (attrs : List (String × String)) (children : NodeList)
  deriving DecidableEq
inductive NodeList where
  | nil
  | cons (hd : Node) (tl : NodeList)
  deriving DecidableEq
end

def NodeList.ofList : List Node → NodeList
  | [] => .nil
  | n :: ns => .cons n (NodeList.ofList ns)

def NodeList.toList : NodeList → List Node
  | .nil => []
  | .cons hd tl => hd :: tl.toList

/-- Convenience constructor taking an ordinary list of children. -/
def Node.el (tag : String) (attrs : List (String × String)) (cs : List Node) : Node :=
  .elem tag attrs (.ofList cs)

def Node.isElem : Node → Bool
  | .text _ => false
  | .elem _ _ _ => true

def Node.tagName : Node → String
  | .text _ => ""
  | .elem t _ _ => t

/-- Model of `Element::attr`: the first attribute with the given name. -/
def Node.attr? : Node → String → Option String
  | .text _, _ => none
  | .elem _ attrs _, key => attrs.lookup key

def NodeList.get? : NodeList → Nat → Option Node
  | .nil, _ => none
  | .cons hd _, 0 => some hd
  | .cons _ tl, i + 1 => tl.get? i

/-- The node reached from `n` by the given child-index path. -/
def getAt : Node → List Nat → Option Node
  | n, [] => some n
  | .text _, _ :: _ => none
  | .elem _ _ cs, i :: p =>
      match cs.get? i with
      | some c => getAt c p
      | none => none

mutual
/-- All nodes of the subtree in document (pre-order) position, each with its
path of child indices relative to the subtree root. -/
def Node.pnodes : Node → List (List Nat × Node)
  | .text s => [([], .text s)]
  | .elem t a cs => ([], .elem t a cs) :: NodeList.pnodesL cs 0
def NodeList.pnodesL : NodeList → Nat → List (List Nat × Node)
  | .nil, _ => []
  | .cons hd tl, i =>
      (hd.pnodes.map (fun pn => (i :: pn.1, pn.2))) ++ NodeList.pnodesL tl (i + 1)
end

/-- The text-node strings of the subtree in document order
(model of collecting `ElementRef::text`). -/
def Node.textNodes (n : Node) : List String :=
  n.pnodes.filterMap fun pn =>
    match pn.2 with
    | .text s => some s
    | .elem _ _ _ => none

/-- Model of `element.text().collect::<String>()`. -/
def Node.textContent (n : Node) : String :=
  n.textNodes.foldl (· ++ ·) ""

/-- Strict pre-order on paths: ancestors precede descendants, siblings are
ordered by index (model of `is_before`, which compares positions in the
parsed tree's node order). -/
def pathBefore : List Nat → List Nat → Bool
  | [], [] => false
  | [], _ :: _ => true
  | _ :: _, [] => false
  | i :: p, j :: q => if i < j then true else if j < i then false else pathBefore p q

def properPrefixes (p : List Nat) : List (List Nat) :=
  (List.range p.length).map fun k => p.take k

/-- Does some proper ancestor of the node at path `p` satisfy `pred`? -/
def hasAncWith (root : Node) (p : List Nat) (pred : Node → Bool) : Bool :=
  (properPrefixes p).any fun q =>
    match getAt root q with
    | some m => pred m
    | none => false

/-! ## Selector model

A selector is a predicate over the document root, the absolute path of the
candidate element, and the element itself; this supports both the
element-local selectors and the Wikipedia descendant-combinator selectors. -/

def Sel : Type := Node → List Nat → Node → Bool

/-- Model of `Html::select`: all matching elements of the document in
document order (the root element included), with their paths. -/
def selectDoc (root : Node) (sel : Sel) : List (List Nat × Node) :=
  root.pnodes.filter fun pn => pn.2.isElem && sel root pn.1 pn.2

/-- Model of `ElementRef::select`: all matching elements strictly inside the
subtree rooted at `scope`, in document order, with absolute paths. -/
def selectIn (root : Node) (scope : List Nat) (sel : Sel) : List (List Nat × Node) :=
  root.pnodes.filter fun pn =>
    scope.isPrefixOf pn.1 && pn.1 ≠ scope && pn.2.isElem && sel root pn.1 pn.2

/-- Element-local selector: tag test only. -/
def tagIs (t : String) : Sel := fun _ _ n => n.tagName = t

def tagIn (ts : List String) : Sel := fun _ _ n => ts.contains n.tagName

/-- CSS class selector `.c`: the `class` attribute has `c` as a whitespace token. -/
def hasClassTok (n : Node) (c : String) : Bool :=
  match n.attr? "class" with
  | some v => (splitWs v).contains c
  | none => false

/-- CSS `[a*='v']`: attribute present and containing `v` as a substring. -/
def attrSub (n : Node) (a v : String) : Bool :=
  match n.attr? a with
  | some w => sContains w v
  | none => false

/-- CSS `[a*='v' i]`: case-insensitive substring. -/
def attrSubCI (n : Node) (a v : String) : Bool :=
  match n.attr? a with
  | some w => sContains (sLower w) (sLower v)
  | none => false

/-- CSS `[a='v']`: attribute present and exactly equal. -/
def attrEq (n : Node) (a v : String) : Bool :=
  match n.attr? a with
  | some w => w = v
  | none => false

/-- CSS `[a^='v']`: attribute present and starting with `v`. -/
def attrPre (n : Node) (a v : String) : Bool :=
  match n.attr? a with
  | some w => sStarts w v
  | none => false

/-- CSS `#i`: id attribute exactly `i`. -/
def hasId (n : Node) (i : String) : Bool := attrEq n "id" i

/-! ## Configuration and result types (`lib.rs`) -/

structure ExtractionConfig where
  include_comments : Bool
  include_tables : Bool
  include_links : Bool
  include_images : Bool
  min_extracted_size : Nat
  extract_metadata : Bool
deriving DecidableEq

/-- `ExtractionConfig::default()` from `lib.rs`. -/
def defaultConfig : ExtractionConfig :=
  { include_comments := false
    include_tables := true
    include_links := true
    include_images := false
    min_extracted_size := 250
    extract_metadata := false }

/-- The `TrafilaturaError` variants the extraction core can raise. -/
inductive TError where
  | extractionError (msg : String)
  | selectorError (msg : String)
deriving DecidableEq

/-- Result of a fallible extraction function (`Result<String, TrafilaturaError>`). -/
inductive XResult where
  | ok (s : String)
  | err (e : TError)
deriving DecidableEq

/-! ## `xpath.rs`: CSS-selector driven extraction -/

structure XPaths where
  main_content : Sel
  paragraphs : Sel
  headings : Sel
  lists : Sel
  list_items : Sel
  tables : Sel
  images : Sel
  captions : Sel
  anchors : Sel

/-- The `DEFAULT_XPATHS.main_content` union, alternative by alternative. -/
def defaultMainContentSel : Sel := fun _ _ n =>
  n.tagName = "article" || n.tagName = "main" ||
  (n.tagName = "div" &&
    (hasClassTok n "post" || hasClassTok n "entry" ||
     attrSub n "class" "post-text" || attrSub n "class" "post_text" ||
     attrSub n "class" "post-body" || attrSub n "class" "post-entry" ||
     attrSub n "class" "postentry" ||
     attrSub n "class" "post-content" || attrSub n "class" "post_content" ||
     attrSub n "class" "postcontent" || attrSub n "class" "postContent" ||
     attrSub n "class" "post_inner_wrapper" ||
     attrSub n "class" "article-text" || attrSub n "class" "articletext" ||
     attrSub n "class" "articleText" ||
     attrSub n "id" "entry-content" ||
     attrSub n "class" "entry-content" || attrSub n "id" "article-content" ||
     attrSub n "class" "article-content" || attrSub n "id" "article__content" ||
     attrSub n "class" "article__content" || attrSub n "id" "article-body" ||
     attrSub n "class" "article-body" || attrSub n "id" "article__body" ||
     attrSub n "class" "article__body" || attrEq n "itemprop" "articleBody" ||
     attrSubCI n "id" "articlebody" || attrSubCI n "class" "articlebody" ||
     hasId n "articleContent" || attrSub n "class" "ArticleContent" ||
     attrSub n "class" "page-content" || attrSub n "class" "text-content" ||
     attrSub n "id" "body-text" || attrSub n "class" "body-text" ||
     attrSub n "class" "article__container" || attrSub n "id" "art-content" ||
     attrSub n "class" "art-content" ||
     attrSub n "class" "post-bodycopy" ||
     attrSub n "class" "storycontent" || attrSub n "class" "story-content" ||
     hasClassTok n "postarea" || hasClassTok n "art-postcontent" ||
     attrSub n "class" "theme-content" || attrSub n "class" "blog-content" ||
     attrSub n "class" "section-content" || attrSub n "class" "single-content" ||
     attrSub n "class" "single-post" ||
     attrSub n "class" "main-column" || attrSub n "class" "wpb_text_column" ||
     attrPre n "id" "primary" || attrPre n "class" "article " || hasClassTok n "text" ||
     hasId n "article" || hasClassTok n "cell" || hasId n "story" || hasClassTok n "story" ||
     attrSub n "class" "story-body" || attrSub n "id" "story-body" ||
     attrSub n "class" "field-body" ||
     attrSubCI n "class" "fulltext" ||
     attrEq n "role" "article" ||
     attrSub n "id" "content-main" || attrSub n "class" "content-main" ||
     attrSub n "class" "content_main" ||
     attrSub n "id" "content-body" || attrSub n "class" "content-body" ||
     attrSub n "id" "contentBody" ||
     attrSub n "class" "content__body" || attrSubCI n "id" "main-content" ||
     attrSubCI n "class" "main-content" ||
     attrSubCI n "class" "page-content" ||
     hasId n "content" || hasClassTok n "content")) ||
  (n.tagName = "section" &&
    (attrPre n "class" "main" || attrPre n "id" "main" || attrPre n "role" "main")) ||
  (n.tagName = "div" &&
    (attrPre n "class" "main" || attrPre n "id" "main" || attrPre n "role" "main"))

def defaultParagraphsSel : Sel := fun _ _ n =>
  n.tagName = "p" ||
  (n.tagName = "div" &&
    (attrSub n "class" "paragraph" || attrSub n "class" "text-block" ||
     attrSub n "class" "post-block" || attrSub n "class" "entry-block" ||
     hasClassTok n "post-text" || hasClassTok n "text" ||
     attrSub n "class" "article-text")) ||
  (n.tagName = "section" && attrSub n "class" "paragraph")

def headingTags : List String := ["h1", "h2", "h3", "h4", "h5", "h6"]

/-- `DEFAULT_XPATHS` from `xpath.rs`. -/
def DEFAULT_XPATHS : XPaths :=
  { main_content := defaultMainContentSel
    paragraphs := defaultParagraphsSel
    headings := tagIn headingTags
    lists := tagIn ["ul", "ol", "dl"]
    list_items := tagIn ["li", "dt", "dd"]
    tables := tagIs "table"
    images := tagIs "img"
    captions := tagIs "figcaption"
    anchors := tagIs "a" }

/-- Ancestor condition common to the Wikipedia selectors:
`div#mw-content-text` or `div.mw-parser-output`. -/
def underWikiScope (root : Node) (p : List Nat) : Bool :=
  hasAncWith root p (fun m => m.tagName = "div" && hasId m "mw-content-text") ||
  hasAncWith root p (fun m => m.tagName = "div" && hasClassTok m "mw-parser-output")

/-- `WIKI_XPATHS` from `xpath.rs`. -/
def WIKI_XPATHS : XPaths :=
  { main_content := fun _ _ n =>
      (n.tagName = "div" &&
        (hasId n "content" || hasId n "bodyContent" || hasId n "mw-content-text" ||
         hasClassTok n "mw-parser-output"))
    paragraphs := fun root p n =>
      (underWikiScope root p && n.tagName = "p") ||
      (hasAncWith root p (fun m => hasClassTok m "mw-parser-output") &&
        hasClassTok n "mw-empty-elt")
    headings := fun root p n => underWikiScope root p && headingTags.contains n.tagName
    lists := fun root p n => underWikiScope root p && (n.tagName = "ul" || n.tagName = "ol")
    list_items := fun root p n => underWikiScope root p && n.tagName = "li"
    tables := fun root p n => underWikiScope root p && n.tagName = "table"
    images := fun root p n => underWikiScope root p && n.tagName = "img"
    captions := fun root p n => underWikiScope root p && n.tagName = "figcaption"
    anchors := fun root p n => underWikiScope root p && n.tagName = "a" }

/-- `WIKI_SKIP_SECTION_TITLES` from `xpath.rs`. -/
def WIKI_SKIP_SECTION_TITLES : List String :=
  ["References", "External links", "See also", "Further reading", "Notes",
   "Bibliography", "Sources", "Citations", "Footnotes", "Literature",
   "Literatur", "Weblinks", "Enlaces externos"]

/-- `EXCLUDE_ELEMENTS` from `xpath.rs`. -/
def EXCLUDE_ELEMENTS : List String :=
  ["nav", "aside", "footer", "menu", "header", "form",
   "script", "style", "noscript", "figcaption", "iframe", "toc"]

/-- `EXCLUDE_CLASSES` from `xpath.rs`. -/
def EXCLUDE_CLASSES : List String :=
  ["nav", "navbar", "menu", "footer", "sidebar", "comment", "widget",
   "advertisement", "ad", "advert", "popup", "banner", "social",
   "sharing", "share", "related", "recommend", "promotion", "shopping",
   "subscribe", "subscription", "newsletter", "promo", "masthead", "aux",
   "breadcrumb", "byline", "metadata", "date", "tags", "cloud", "topics",
   "author", "copyright", "disclaimer"]

/-- `EXCLUDE_IDS` from `xpath.rs`. -/
def EXCLUDE_IDS : List String :=
  ["nav", "navbar", "menu", "footer", "sidebar", "comment", "comments",
   "advertisement", "social", "sharing", "share", "related", "recommend",
   "newsletter", "promo", "masthead", "breadcrumb", "byline", "metadata",
   "pagination", "pager", "tags", "tag-cloud", "topics", "topic-list",
   "category", "categories", "search", "sidebar", "toc"]

/-- `should_skip_section` from `xpath.rs`. -/
def should_skip_section (heading_text : String) : Bool :=
  WIKI_SKIP_SECTION_TITLES.any fun t => sContains (sLower heading_text) (sLower t)

/-- `is_wikipedia_page` from `xpath.rs`. -/
def is_wikipedia_page (root : Node) : Bool :=
  (selectDoc root (fun _ _ n => n.tagName = "meta" && attrEq n "property" "og:site_name")).any
    (fun pn =>
      match pn.2.attr? "content" with
      | some c => sContains c "Wikipedia"
      | none => false) ||
  (selectDoc root (fun _ _ n => n.tagName = "link" && attrEq n "rel" "canonical")).any
    (fun pn =>
      match pn.2.attr? "href" with
      | some h => sContains h "wikipedia.org"
      | none => false)

/-- `is_heading` from `xpath.rs`. -/
def is_heading (n : Node) : Bool := headingTags.contains (sLower n.tagName)

/-- The element-local half of `should_exclude`: tag, class tokens, id. -/
def excludedBySelf (n : Node) : Bool :=
  EXCLUDE_ELEMENTS.any (fun t => eqCI t (sLower n.tagName)) ||
  (match n.attr? "class" with
   | some v => (splitWs v).any fun cls => EXCLUDE_CLASSES.any fun e => eqCI cls e
   | none => false) ||
  (match n.attr? "id" with
   | some i => EXCLUDE_IDS.any fun e => eqCI i e
   | none => false)

/-- `should_exclude` from `xpath.rs`: the element and its immediate parent
are both checked against the tag/class/id exclusion lists. -/
def should_exclude (root : Node) (p : List Nat) (n : Node) : Bool :=
  excludedBySelf n ||
  (p ≠ [] &&
    (match getAt root (p.dropLast) with
     | some par => par.isElem && excludedBySelf par
     | none => false))

def hSel : Sel := tagIn headingTags

def findPrecAux (root : Node) (ep : List Nat) : Nat → Option String
  | 0 => none
  | k + 1 =>
      let parentPath := ep.take k
      match (selectIn root parentPath hSel).find? (fun pn => pathBefore pn.1 ep) with
      | some pn => some pn.2.textContent
      | none =>
          match getAt root parentPath with
          | some par =>
              if eqCI par.tagName "section" || eqCI par.tagName "article" then none
              else findPrecAux root ep k
          | none => none

/-- `find_preceding_heading_text` from `xpath.rs`: walk the ancestors upward;
under each ancestor scan all descendant headings in document order and return
the first one positioned before the element; stop after a section/article
ancestor. -/
def find_preceding_heading_text (root : Node) (ep : List Nat) : Option String :=
  findPrecAux root ep ep.length

/-- The Wikipedia skip test applied to a paragraph/list/table element inside
`extract_with_xpath`. -/
def xpathSkip (is_wiki : Bool) (root : Node) (p : List Nat) : Bool :=
  is_wiki &&
    (match find_preceding_heading_text root p with
     | some t => should_skip_section t
     | none => false)

/-- The headings pass of `extract_with_xpath`. -/
def xpathHeadingsOut (is_wiki : Bool) (root : Node) (mpath : List Nat) (xp : XPaths) : String :=
  (selectIn root mpath xp.headings).foldl
    (fun acc pn =>
      let t := pn.2.textContent
      let is_skip := is_wiki && should_skip_section t
      if !is_skip && is_heading pn.2 then
        (if sTrim t ≠ "" then acc ++ t ++ "\n\n" else acc)
      else acc)
    ""

/-- The paragraphs pass of `extract_with_xpath`. -/
def xpathParasOut (is_wiki : Bool) (root : Node) (mpath : List Nat) (xp : XPaths) : String :=
  (selectIn root mpath xp.paragraphs).foldl
    (fun acc pn =>
      if xpathSkip is_wiki root pn.1 || should_exclude root pn.1 pn.2 then acc
      else
        let trimmed := sTrim pn.2.textContent
        if trimmed ≠ "" && 10 < trimmed.length then acc ++ trimmed ++ "\n\n" else acc)
    ""

/-- The lists pass of `extract_with_xpath` (body of the
`if config.include_tables` block). -/
def xpathListsOut (is_wiki : Bool) (root : Node) (mpath : List Nat) (xp : XPaths) : String :=
  (selectIn root mpath xp.lists).foldl
    (fun acc pn =>
      if xpathSkip is_wiki root pn.1 || should_exclude root pn.1 pn.2 then acc
      else
        let items :=
          (selectIn root pn.1 xp.list_items).foldl
            (fun acc2 it =>
              if should_exclude root it.1 it.2 then acc2
              else
                let t := sTrim it.2.textContent
                if t ≠ "" then acc2 ++ "• " ++ t ++ "\n" else acc2)
            ""
        acc ++ items ++ "\n")
    ""

/-- The tables pass of `extract_with_xpath` (second
`if config.include_tables` block). -/
def xpathTablesOut (is_wiki : Bool) (root : Node) (mpath : List Nat) (xp : XPaths) : String :=
  (selectIn root mpath xp.tables).foldl
    (fun acc pn =>
      if xpathSkip is_wiki root pn.1 || should_exclude root pn.1 pn.2 then acc
      else
        let t := sTrim pn.2.textContent
        if t ≠ "" then acc ++ "[Table: " ++ t ++ "]\n\n" else acc)
    ""

/-- The images pass of `extract_with_xpath` (`if config.include_images`). -/
def xpathImagesOut (root : Node) (mpath : List Nat) (xp : XPaths) : String :=
  (selectIn root mpath xp.images).foldl
    (fun acc pn =>
      if should_exclude root pn.1 pn.2 then acc
      else
        let alt := (pn.2.attr? "alt").getD ""
        let src := (pn.2.attr? "src").getD ""
        if alt ≠ "" || src ≠ "" then
          acc ++ "[Image: " ++ (if alt ≠ "" then alt else src) ++ "]\n\n"
        else acc)
    ""

/-- `extract_with_xpath` from `xpath.rs`. -/
def extract_with_xpath (root : Node) (config : ExtractionConfig) : XResult :=
  let is_wiki := is_wikipedia_page root
  let xp := if is_wiki then WIKI_XPATHS else DEFAULT_XPATHS
  let elems := selectDoc root xp.main_content
  let elems := if elems.isEmpty then selectDoc root (tagIs "body") else elems
  match elems with
  | [] => .err (.extractionError "No content elements found")
  | me :: _ =>
      let mpath := me.1
      let content :=
        xpathHeadingsOut is_wiki root mpath xp ++
        xpathParasOut is_wiki root mpath xp ++
        (if config.include_tables then xpathListsOut is_wiki root mpath xp else "") ++
        (if config.include_tables then xpathTablesOut is_wiki root mpath xp else "") ++
        (if config.include_images then xpathImagesOut root mpath xp else "")
      .ok (collapseNl3 (sTrim content))

/-! ## `html.rs`: sanitizer and shared text extraction -/

/-- `UNWANTED_ELEMENTS` from `html.rs`. -/
def UNWANTED_ELEMENTS : List String :=
  ["script", "style", "noscript", "iframe", "footer", "nav", "aside",
   "form", "button", "svg", "head", "header", "meta", "link", "comment",
   "cite", "figcaption", "time", "small", "address"]

/-- `UNWANTED_CLASSES` from `html.rs`. -/
def UNWANTED_CLASSES : List String :=
  ["nav", "navbar", "navigation", "menu", "footer", "comment", "widget",
   "sidebar", "advertisement", "ad", "advert", "popup", "banner", "social",
   "sharing", "share", "related", "recommend", "promotion", "shopping",
   "subscribe", "subscription", "newsletter", "promo", "masthead", "aux",
   "top-bar", "breadcrumb", "byline", "author-info", "metadata", "date-info",
   "bottom-of-article", "bottom-wrapper", "download", "external", "toolbar",
   "social-media", "pagination", "pager", "pages", "gallery", "attachment",
   "viewer", "copyright", "disclaimer", "tags", "tag-cloud", "topics", "topic-list",
   "category", "categories", "cat-item", "author", "dateline", "timestamp", "time-info",
   "published", "pub-date", "publication-date", "post-meta", "article-meta", "article-header",
   "article-footer", "article-byline", "article-details", "story-meta", "story-header",
   "headline", "subheadline", "summary", "kicker", "deck", "credit", "source", "caption",
   "title-info", "read-more", "more-link", "also-read", "also-see", "see-also", "recommended",
   "recommendations", "popularity", "most-read", "most-shared", "trending", "hot"]

/-- `UNWANTED_IDS` from `html.rs`. -/
def UNWANTED_IDS : List String :=
  ["nav", "navbar", "navigation", "menu", "footer", "comments", "sidebar",
   "advertisement", "related", "recommend", "social", "sharing",
   "subscribe", "subscription", "newsletter", "promo", "masthead",
   "top-bar", "breadcrumb", "byline", "author-info", "metadata", "date-info",
   "bottom-of-article", "bottom-wrapper", "download", "external", "toolbar",
   "social-media", "pagination", "pager", "pages", "gallery", "attachment",
   "viewer", "copyright", "disclaimer", "tags", "tag-cloud", "topics", "topic-list",
   "category", "categories", "author", "dateline", "timestamp", "time-info",
   "published", "pub-date", "publication-date", "post-meta", "article-meta", "article-header",
   "article-footer", "article-byline", "article-details", "story-meta", "story-header",
   "headline", "subheadline", "summary", "kicker", "deck", "credit", "source", "caption",
   "title-info", "read-more", "more-link", "also-read", "also-see", "see-also", "recommended",
   "recommendations", "popularity", "most-read", "most-shared", "trending", "hot"]

/-- `has_class_hint` from `html.rs`: the class attribute contains any hint
as a substring. -/
def has_class_hint (n : Node) (hints : List String) : Bool :=
  match n.attr? "class" with
  | some v => hints.any fun h => sContains v h
  | none => false

/-- `has_id_hint` from `html.rs`. -/
def has_id_hint (n : Node) (hints : List String) : Bool :=
  match n.attr? "id" with
  | some v => hints.any fun h => sContains v h
  | none => false

inductive NodeResult where
  | ok (n : Node)
  | err (e : TError)
deriving DecidableEq

/-- `clean_html` from `html.rs`.  The source's removal loop bodies are empty
(`scraper` offers no mutation there) and the function ends with
`Ok(document.clone())`, so the embedded function returns the document
unchanged. -/
def clean_html (document : Node) (_config : ExtractionConfig) : NodeResult :=
  .ok document

/-- Strict descendant elements of a node satisfying a local predicate,
in document order. -/
def descElems (n : Node) (pred : Node → Bool) : List Node :=
  (n.pnodes.filter fun pn => pn.1 ≠ [] && pn.2.isElem && pred pn.2).map Prod.snd

def boilerplateMarkers : List String :=
  ["Catch all the", "Download", "Follow us", "First Published",
   "Read more about", "More on this topic", "Related articles", "Tags:", "Copyright"]

def shortMetaSubstrings : List String :=
  ["Published", "Updated", "By ", "Written by", "Posted", "Share", "Read",
   "Follow", "Subscribe", "Also Read", "ALSO READ", "More Less"]

def linkIntroPatterns : List String :=
  ["Also Read |", "Read: ", "Watch: ", "See also: "]

/-- The paragraph-collection loop of `get_text_content`, with the one-way
`skip_rest` flag. -/
def gtcParagraphs (element : Node) : List String :=
  ((descElems element (fun n => n.tagName = "p")).foldl
    (fun (st : Bool × List String) p =>
      let skip_rest := st.1
      if has_class_hint p UNWANTED_CLASSES || has_id_hint p UNWANTED_IDS then st
      else
        let p_text := p.textContent
        if boilerplateMarkers.any (fun m => sContains p_text m) then (true, st.2)
        else if skip_rest then st
        else if p_text.length < 30 &&
            (shortMetaSubstrings.any (fun m => sContains p_text m) ||
             sStarts p_text "Watch:" || sContains p_text "Business News" ||
             sContains p_text "Latest News") then st
        else if linkIntroPatterns.any (fun m => sStarts p_text m) then st
        else (skip_rest, st.2 ++ [p_text]))
    (false, [])).2

/-- The fallback branch of `get_text_content` when no paragraph survived:
filter the raw text nodes and join them with spaces. -/
def gtcFallbackText (element : Node) : String :=
  let kept := element.textNodes.filter fun t =>
    let trimmed := sTrim t
    !(trimmed = "" ||
      sStarts trimmed "Published" ||
      sStarts trimmed "Updated" ||
      sStarts trimmed "Written by" ||
      sStarts trimmed "By " ||
      sContains trimmed "©" ||
      sContains trimmed "All rights reserved" ||
      sStarts trimmed "Share" ||
      sStarts trimmed "Posted" ||
      trimmed = "Read More" ||
      trimmed = "Also Read" ||
      sStarts trimmed "Follow us")
  String.intercalate " " kept

def skippedHrefSubstrings : List String :=
  ["/tag/", "/tags/", "/topic/", "/topics/", "/author/", "/authors/",
   "/category/", "/categories/", "facebook.com", "twitter.com",
   "linkedin.com", "instagram.com", "youtube.com", "mailto:"]

/-- The link-appending loop of `get_text_content` (`config.include_links`). -/
def gtcLinks (element : Node) : String :=
  (descElems element (fun n => n.tagName = "a")).foldl
    (fun acc link =>
      if has_class_hint link ["nav", "menu", "social", "share", "tag", "author",
          "byline", "timestamp"] then acc
      else
        match link.attr? "href" with
        | none => acc
        | some href =>
            if skippedHrefSubstrings.any (fun m => sContains href m) then acc
            else
              let link_text := link.textContent
              if link_text ≠ "" && 3 < link_text.length &&
                  !sContains link_text "Read more" &&
                  !sContains link_text "More" &&
                  !sContains link_text "Also" then
                acc ++ " (" ++ href ++ ") "
              else acc)
    ""

/-- The image-appending loop of `get_text_content` (`config.include_images`). -/
def gtcImages (element : Node) : String :=
  (descElems element (fun n => n.tagName = "img")).foldl
    (fun acc img =>
      if has_class_hint img ["icon", "logo", "social", "avatar", "ad"] then acc
      else
        let alt := (img.attr? "alt").getD ""
        let src := (img.attr? "src").getD ""
        if alt ≠ "" then acc ++ "[Image: " ++ alt ++ "] "
        else if src ≠ "" then acc ++ "[Image: " ++ src ++ "] "
        else acc)
    ""

/-- The post-assembly cleanup chain of `get_text_content`: boilerplate-phrase
replacements, bare-URL and parenthetical stripping, whitespace normalization. -/
def gtcCleanup (t0 : String) : String :=
  let t := sReplace t0 "Also Read" ""
  let t := sReplace t "Read More" ""
  let t := sReplace t "ALSO READ:" ""
  let t := sReplace t "Catch all the" ""
  let t := sReplace t "Download The" ""
  let t := sReplace t "First Published :" ""
  let t := sReplace t "Published :" ""
  let t := sReplace t "Published on" ""
  let t := sReplace t "Last Updated :" ""
  let t := stripUrls t
  let t := stripPathParens t
  let t := stripEmptyParens t
  let t := sReplace t " ( " " "
  let t := sReplace t " ) " " "
  let t := sReplace t "Business News" ""
  let t := sReplace t "Economy news" ""
  let t := sReplace t "Breaking News Events" ""
  let t := sReplace t "Latest News Updates" ""
  let t := sReplace t "Daily Market Updates" ""
  let t := sReplace t "More Less" ""
  let t := collapseWs t
  let t := collapseNl t
  sTrim t

/-- `get_text_content` from `html.rs`. -/
def get_text_content (element : Node) (config : ExtractionConfig) : String :=
  if has_class_hint element UNWANTED_CLASSES || has_id_hint element UNWANTED_IDS then ""
  else
    let paragraphs := gtcParagraphs element
    let text :=
      if paragraphs ≠ [] then String.intercalate "\n\n" paragraphs
      else gtcFallbackText element
    let text := text ++ (if config.include_links then gtcLinks element else "")
    let text := text ++ (if config.include_images then gtcImages element else "")
    gtcCleanup text

/-! ## `extractors.rs`: scoring, candidate search and strategy orchestration -/

/-- `CONTENT_CLASSES` from `extractors.rs`. -/
def CONTENT_CLASSES : List String :=
  ["article", "post", "content", "entry", "main", "text", "blog", "story", "body",
   "column", "section", "post-content", "main-content", "article-content",
   "story-content", "story-body", "news-content", "news-article", "news-story",
   "entry-content", "article-body", "article-text", "articleBody", "content-article",
   "post-text", "post-body", "content-text", "content-body", "rich-text", "page-content"]

/-- `CONTENT_IDS` from `extractors.rs`. -/
def CONTENT_IDS : List String :=
  ["article", "post", "content", "entry", "main", "text", "blog", "story", "body",
   "column", "section", "post-content", "main-content", "article-content",
   "story-content", "story-body", "news-content", "news-article", "news-story",
   "entry-content", "article-body", "article-text", "articleBody", "content-article",
   "post-text", "post-body", "content-text", "content-body", "story-text", "page-content"]

/-- `TAG_WEIGHTS` from `extractors.rs`. -/
def TAG_WEIGHTS : List (String × Int) :=
  [("div", 5), ("p", 15), ("h1", 10), ("h2", 8), ("h3", 6), ("h4", 4), ("h5", 3),
   ("article", 25), ("section", 15), ("main", 25), ("content", 20),
   ("li", 1), ("td", 1), ("a", -5), ("script", -50), ("style", -50),
   ("header", -25), ("footer", -50), ("nav", -50), ("aside", -30),
   ("iframe", -40), ("form", -20), ("button", -15), ("banner", -30),
   ("social", -25), ("share", -25), ("comment", -25), ("advertisement", -50),
   ("meta", -25), ("widget", -25)]

/-- `LINK_DENSITY_THRESHOLD` from `extractors.rs` (`0.33`). -/
def LINK_DENSITY_THRESHOLD : ℚ := 33 / 100

/-- `calculate_link_density` from `extractors.rs`: text length inside
descendant anchors over total text length, `0` for zero total text. -/
def calculate_link_density (element : Node) : ℚ :=
  let total := element.textContent.length
  if total = 0 then 0
  else
    let linkLen : Nat :=
      ((descElems element (fun n => n.tagName = "a")).map
        (fun l => l.textContent.length)).sum
    (linkLen : ℚ) / (total : ℚ)

def scoreUnwantedHints : List String :=
  ["nav", "navbar", "navigation", "menu", "footer", "header", "sidebar",
   "advertisement", "social", "sharing", "comment", "related", "recommendation"]

def contentElementTags : List String :=
  ["p", "h1", "h2", "h3", "h4", "h5", "h6", "li"]

/-- `score_node` from `extractors.rs`, accumulator step by accumulator step. -/
def score_node (element : Node) (_config : ExtractionConfig) : Int :=
  let s0 : Int := (element.textContent.length / 20 : Nat)
  let s1 := s0 + (if has_class_hint element CONTENT_CLASSES then 75 else 0)
  let s2 := s1 + (if has_id_hint element CONTENT_IDS then 75 else 0)
  let p_count := (descElems element (fun n => n.tagName = "p")).length
  let s3 := s2 + (p_count : Int) * 10
  let s4 := s3 +
    ((descElems element (fun n => contentElementTags.contains n.tagName)).length : Int) * 5
  let s5 := s4 - (if has_class_hint element scoreUnwantedHints then 50 else 0)
  let s6 := s5 - (if has_id_hint element scoreUnwantedHints then 50 else 0)
  let s7 := s6 +
    ((descElems element (fun _ => true)).map
      (fun c => ((TAG_WEIGHTS.lookup c.tagName).getD 0))).sum
  let ld := calculate_link_density element
  let s8 := s7 - (if LINK_DENSITY_THRESHOLD < ld then Rat.floor (ld * 150) else 0)
  let s9 := s8 +
    (if (descElems element (fun n => ["h1", "h2", "h3"].contains n.tagName)) ≠ [] ∧
        2 ≤ p_count then 30 else 0)
  s9

def fccUnwantedHints : List String :=
  ["nav", "navbar", "navigation", "menu", "footer", "header", "sidebar",
   "advertisement", "ad", "social", "share", "sharing", "comment", "comments",
   "related", "recommended", "promotion", "promo", "subscribe", "subscription",
   "download", "copyright", "tags", "tag-cloud", "breadcrumb", "pagination",
   "pager", "widget", "banner"]

/-- `find_content_candidates` from `extractors.rs`: article/main hits are both
pushed to the back and inserted at the front (they appear twice). -/
def find_content_candidates (document : Node) : List Node :=
  (["article", "main", "section", "div", "body"]).foldl
    (fun cands tag =>
      (selectDoc document (tagIs tag)).foldl
        (fun cands pn =>
          let element := pn.2
          if has_class_hint element fccUnwantedHints ||
             has_id_hint element fccUnwantedHints then cands
          else if LINK_DENSITY_THRESHOLD < calculate_link_density element then cands
          else
            let p_count := (descElems element (fun n => n.tagName = "p")).length
            let text_length := element.textContent.length
            if (250 < text_length && 2 ≤ p_count) || 500 < text_length ||
               4 ≤ p_count || has_class_hint element CONTENT_CLASSES ||
               has_id_hint element CONTENT_IDS then
              (if tag = "article" || tag = "main" then element :: (cands ++ [element])
               else cands ++ [element])
            else if 100 < text_length then cands ++ [element]
            else cands)
        cands)
    []

/-- `extract_by_density` from `extractors.rs`. -/
def extract_by_density (document : Node) (config : ExtractionConfig) : Option String :=
  match find_content_candidates document with
  | [] => none
  | c0 :: rest =>
      let best := rest.foldl
        (fun (b : Node × Int) c =>
          let s := score_node c config
          if b.2 < s then (c, s) else b)
        (c0, score_node c0 config)
      let text := get_text_content best.1 config
      if text ≠ "" then some text else none

/-- `extract_by_hints` from `extractors.rs`: per hint, only the first matching
element is inspected; an unsuitable text falls through to the next hint. -/
def extract_by_hints (document : Node) (config : ExtractionConfig) : Option String :=
  let tryHints : List String → (Node → String → Bool) → Option String := fun hints f =>
    hints.foldl
      (fun acc hint =>
        match acc with
        | some c => some c
        | none =>
            match selectDoc document (fun _ _ n => f n hint) with
            | [] => none
            | pn :: _ =>
                let text := get_text_content pn.2 config
                if text ≠ "" && config.min_extracted_size ≤ text.length then some text
                else none)
      none
  match tryHints CONTENT_CLASSES (fun n h => attrSub n "class" h) with
  | some c => some c
  | none => tryHints CONTENT_IDS (fun n h => attrSub n "id" h)

/-- `extract_wikipedia_content` from `extractors.rs`. -/
def extract_wikipedia_content (document : Node) (_config : ExtractionConfig) : Option String :=
  match selectDoc document (fun _ _ n => hasId n "mw-content-text") with
  | [] => none
  | mc :: _ =>
      match selectIn document mc.1 (fun _ _ n => hasClassTok n "mw-parser-output") with
      | [] => none
      | po :: _ =>
          let title :=
            match selectDoc document (fun _ _ n => hasId n "firstHeading") with
            | [] => ""
            | t :: _ => t.2.textContent ++ "\n\n"
          let body :=
            (selectIn document po.1
              (fun _ _ n =>
                ["h1", "h2", "h3", "h4", "h5", "h6", "p", "ul", "ol"].contains n.tagName)).foldl
              (fun (st : Bool × String) pn =>
                let skip_section := st.1
                let acc := st.2
                let tag := pn.2.tagName
                let element_text := sTrim pn.2.textContent
                if element_text = "" then st
                else if sStarts tag "h" then
                  let sk := element_text = "References" || element_text = "External links" ||
                    element_text = "See also" || element_text = "Further reading" ||
                    element_text = "Notes" || sContains element_text "Bibliography" ||
                    sContains element_text "Sources"
                  (sk, if !sk then acc ++ element_text ++ "\n\n" else acc)
                else if skip_section then st
                else if tag = "p" then
                  if element_text.length < 20 &&
                      (sContains element_text "Redirected from" ||
                       sContains element_text "Jump to navigation" ||
                       sContains element_text "From Wikipedia") then st
                  else (skip_section, acc ++ element_text ++ "\n\n")
                else if tag = "ul" || tag = "ol" then
                  let items :=
                    (selectIn document pn.1 (fun _ _ n => n.tagName = "li")).foldl
                      (fun a2 li =>
                        let t := sTrim li.2.textContent
                        if t ≠ "" then a2 ++ "• " ++ t ++ "\n" else a2)
                      ""
                  (skip_section, acc ++ items ++ "\n")
                else st)
              (false, "")
          let content := title ++ body.2
          if content ≠ "" then some (sTrim content) else none

/-- The filtered-paragraph clustering plus last-resort passes at the end of
`extract_content`. -/
def extractContentParagraphs (cleaned : Node) (config : ExtractionConfig) : XResult :=
  let lastResort : XResult :=
    .ok (sTrim ((selectDoc cleaned (tagIs "p")).foldl
      (fun acc pn =>
        let t := get_text_content pn.2 config
        if sTrim t ≠ "" then acc ++ t ++ "\n" else acc)
      ""))
  let paragraphs := (selectDoc cleaned (tagIs "p")).filter fun pn =>
    let text := pn.2.textContent
    if text.length < 20 then false
    else if LINK_DENSITY_THRESHOLD < calculate_link_density pn.2 then false
    else if pn.1 ≠ [] then
      match getAt cleaned pn.1.dropLast with
      | some par =>
          !(par.isElem && has_class_hint par
              ["nav", "menu", "footer", "header", "sidebar", "comment"])
      | none => true
    else true
  if 3 ≤ paragraphs.length then
    let text := paragraphs.foldl
      (fun acc pn =>
        let ptext := get_text_content pn.2 config
        if sTrim ptext ≠ "" then acc ++ ptext ++ "\n" else acc)
      ""
    if config.min_extracted_size ≤ text.length then .ok (sTrim text)
    else lastResort
  else lastResort

/-- `extract_content` from `extractors.rs`: Wikipedia-specific pass, article
tag, hints, density, filtered paragraphs, last resort — each gated on
non-emptiness and `min_extracted_size` except the last. -/
def extract_content (document : Node) (config : ExtractionConfig) : XResult :=
  match clean_html document config with
  | .err e => .err e
  | .ok cleaned =>
      let wiki :=
        match extract_wikipedia_content cleaned config with
        | some content =>
            if content ≠ "" && config.min_extracted_size ≤ content.length then some content
            else none
        | none => none
      match wiki with
      | some c => .ok c
      | none =>
          let best := (selectDoc cleaned (tagIs "article")).foldl
            (fun (b : String × Int) pn =>
              let text := get_text_content pn.2 config
              if text ≠ "" && config.min_extracted_size ≤ text.length then
                let score := score_node pn.2 config
                if b.2 < score then (text, score) else b
              else b)
            ("", 0)
          if best.1 ≠ "" then .ok best.1
          else
            let hints :=
              match extract_by_hints cleaned config with
              | some content =>
                  if content ≠ "" && config.min_extracted_size ≤ content.length then
                    some content
                  else none
              | none => none
            match hints with
            | some c => .ok c
            | none =>
                let density :=
                  match extract_by_density cleaned config with
                  | some content =>
                      if content ≠ "" && config.min_extracted_size ≤ content.length then
                        some content
                      else none
                  | none => none
                match density with
                | some c => .ok c
                | none => extractContentParagraphs cleaned config

/-! ## `readability.rs`: independent readability-style fallback -/

namespace readability

/-- `POSITIVE_INDICATORS` from `readability.rs`. -/
def POSITIVE_INDICATORS : List String :=
  ["article", "body", "content", "entry", "main", "page", "post",
   "text", "blog", "story", "container", "readable"]

/-- `NEGATIVE_INDICATORS` from `readability.rs`. -/
def NEGATIVE_INDICATORS : List String :=
  ["advert", "ad-", "banner", "combx", "comment", "community", "disqus",
   "extra", "foot", "header", "menu", "meta", "nav", "popup", "related",
   "remark", "rss", "share", "shoutbox", "sidebar", "sponsor", "shopping",
   "widget", "hidden", "js", "modal", "login"]

/-- The alternatives of the case-insensitive `UNLIKELY_PATTERNS` regex. -/
def UNLIKELY_WORDS : List String :=
  ["banner", "breadcrumbs", "combx", "comment", "community", "cover-wrap",
   "disqus", "extra", "foot", "header", "legends", "menu", "related",
   "remark", "replies", "rss", "shoutbox", "sidebar", "skyscraper", "social",
   "sponsor", "supplemental", "ad-break", "agegate", "pagination", "pager",
   "popup", "yom-remote"]

/-- The alternatives of the case-insensitive `LIKELY_PATTERNS` regex
(`pag(?:e|ination)` contributes `page` and `pagination`). -/
def LIKELY_WORDS : List String :=
  ["article", "body", "content", "entry", "main", "news", "page",
   "pagination", "post", "text", "blog", "story"]

def unlikelyMatch (s : String) : Bool := UNLIKELY_WORDS.any fun w => sContains (sLower s) w

def likelyMatch (s : String) : Bool := LIKELY_WORDS.any fun w => sContains (sLower s) w

/-- Should `prepare_document` delete this node?  Exempt structural tags keep
everything; otherwise an unlikely-and-not-likely class or id condemns it. -/
def removedByPrepare (n : Node) : Bool :=
  n.isElem &&
  !(["html", "body", "article", "section", "main"].contains n.tagName) &&
  ((match n.attr? "class" with
    | some c => unlikelyMatch c && !likelyMatch c
    | none => false) ||
   (match n.attr? "id" with
    | some i => unlikelyMatch i && !likelyMatch i
    | none => false))

mutual
/-- `prepare_document` from `readability.rs` as a pure tree filter: detaching
every collected node is the same as dropping each condemned child with its
subtree. -/
def prepareNode : Node → Node
  | .text s => .text s
  | .elem t a cs => .elem t a (prepareList cs)
def prepareList : NodeList → NodeList
  | .nil => .nil
  | .cons hd tl =>
      if removedByPrepare hd then prepareList tl
      else .cons (prepareNode hd) (prepareList tl)
end

/-- `calculate_link_density` from `readability.rs` (kuchiki's `select` is
inclusive, so an anchor node counts its own text). -/
def calculate_link_density (node : Node) : ℚ :=
  let total := node.textContent.length
  if total = 0 then 0
  else
    let linkLen : Nat :=
      ((node.pnodes.filter fun pn => pn.2.isElem && pn.2.tagName = "a").map
        (fun pn => pn.2.textContent.length)).sum
    (linkLen : ℚ) / (total : ℚ)

/-- `score_node` from `readability.rs`. -/
def score_node (node : Node) : ℚ :=
  if !node.isElem then 0
  else
    let tag := node.tagName
    let s : ℚ := 1
    let s := s + (if tag = "div" then (5 : ℚ)
      else if tag = "article" || tag = "section" || tag = "main" then 10
      else if tag = "p" then 3
      else if tag = "pre" || tag = "td" || tag = "blockquote" then 3
      else 0)
    let s := s + (if has_class_hint node POSITIVE_INDICATORS then 25 else 0)
    let s := s + (if has_id_hint node POSITIVE_INDICATORS then 25 else 0)
    let s := s - (if has_class_hint node NEGATIVE_INDICATORS then 25 else 0)
    let s := s - (if has_id_hint node NEGATIVE_INDICATORS then 25 else 0)
    let s := s + (node.textContent.length : ℚ) / 100
    s * (1 - calculate_link_density node)

/-- `extract_with_readability` from `readability.rs`. -/
def extract_with_readability (document : Node) (config : ExtractionConfig) : XResult :=
  match clean_html document config with
  | .err e => .err e
  | .ok cleaned =>
      let working := prepareNode cleaned
      let paragraphs := working.pnodes.filter fun pn =>
        pn.2.isElem && pn.2.tagName = "p"
      let candidates := paragraphs.foldl
        (fun (cands : List (List Nat × Node × ℚ)) pn =>
          if pn.2.textContent.length < 25 then cands
          else
            match pn.1 with
            | [] => cands
            | _ =>
                let ppath := pn.1.dropLast
                if cands.any (fun c => c.1 = ppath) then cands
                else
                  match getAt working ppath with
                  | some parent => cands ++ [(ppath, parent, score_node parent)]
                  | none => cands)
        []
      match candidates with
      | [] =>
          match working.pnodes.find? (fun pn => pn.2.isElem && pn.2.tagName = "body") with
          | none => .err (.extractionError "No body element found")
          | some b => .ok (get_text_content b.2 config)
      | c0 :: rest =>
          let best := rest.foldl (fun b c => if b.2.2 < c.2.2 then c else b) c0
          .ok (get_text_content best.2.1 config)

end readability

/-! ## `lib.rs`: the orchestrating `extract_html` -/

/-- The final length gate at the end of `extract_html`. -/
def extractGate (s : String) (config : ExtractionConfig) : XResult :=
  if s = "" || s.length < config.min_extracted_size then
    .err (.extractionError ("Extracted content too short: " ++ toString s.length ++ " chars"))
  else .ok s

/-- `extract_html` from `lib.rs`.  The optional `extract_metadata` step only
fills title/author/date fields, never fails and never touches the content, so
it has no effect on the content result modelled here.  The `?` operators on
the three strategy calls propagate their errors. -/
def extract_html (root : Node) (config : ExtractionConfig) : XResult :=
  match extract_with_xpath root config with
  | .err e => .err e
  | .ok xpath_content =>
      if xpath_content ≠ "" && config.min_extracted_size ≤ xpath_content.length then
        .ok xpath_content
      else
        match extract_content root config with
        | .err e => .err e
        | .ok content =>
            if content = "" || content.length < config.min_extracted_size then
              match readability.extract_with_readability root config with
              | .err e => .err e
              | .ok readability_content =>
                  if readability_content ≠ "" &&
                      config.min_extracted_size ≤ readability_content.length then
                    extractGate readability_content config
                  else
                    extractGate content config
            else extractGate content config

/-! ## Specification-side definitions (for comparison with the code) -/

def Node.childrenL (n : Node) : List Node :=
  match n with
  | .text _ => []
  | .elem _ _ cs => cs.toList

/-- Modelled from the claim's reference formula for the heuristic scorer,
reading "direct h1-h3 descendant heading" as a direct child heading. -/
def spec_score_direct (element : Node) : Int :=
  let p_count := (descElems element (fun n => n.tagName = "p")).length
  let ld := calculate_link_density element
  ((element.textContent.length / 20 : Nat) : Int) +
  (if has_class_hint element CONTENT_CLASSES then 75 else 0) +
  (if has_id_hint element CONTENT_IDS then 75 else 0) +
  10 * (p_count : Int) +
  5 * ((descElems element (fun n => contentElementTags.contains n.tagName)).length : Int) -
  (if has_class_hint element scoreUnwantedHints then 50 else 0) -
  (if has_id_hint element scoreUnwantedHints then 50 else 0) +
  ((descElems element (fun _ => true)).map
    (fun c => ((TAG_WEIGHTS.lookup c.tagName).getD 0))).sum -
  (if LINK_DENSITY_THRESHOLD < ld then Rat.floor (ld * 150) else 0) +
  (if (element.childrenL.any fun c =>
        c.isElem && ["h1", "h2", "h3"].contains c.tagName) = true ∧ 2 ≤ p_count
   then 30 else 0)

/-- The claim's reference formula with the heading bonus read as the code has
it: an h1-h3 descendant at any depth. -/
def spec_score (element : Node) : Int :=
  let p_count := (descElems element (fun n => n.tagName = "p")).length
  let ld := calculate_link_density element
  ((element.textContent.length / 20 : Nat) : Int) +
  (if has_class_hint element CONTENT_CLASSES then 75 else 0) +
  (if has_id_hint element CONTENT_IDS then 75 else 0) +
  10 * (p_count : Int) +
  5 * ((descElems element (fun n => contentElementTags.contains n.tagName)).length : Int) -
  (if has_class_hint element scoreUnwantedHints then 50 else 0) -
  (if has_id_hint element scoreUnwantedHints then 50 else 0) +
  ((descElems element (fun _ => true)).map
    (fun c => ((TAG_WEIGHTS.lookup c.tagName).getD 0))).sum -
  (if LINK_DENSITY_THRESHOLD < ld then Rat.floor (ld * 150) else 0) +
  (if (descElems element (fun n => ["h1", "h2", "h3"].contains n.tagName)) ≠ [] ∧
      2 ≤ p_count then 30 else 0)

def sEnds (s suf : String) : Bool := listStarts s.data.reverse suf.data.reverse

/-- Modelled from the claim's wording: the host part of an URL (the part
after the scheme and before the first slash, query or fragment). -/
def urlHost (href : String) : String :=
  let rest :=
    if sStarts href "https://" then href.data.drop 8
    else if sStarts href "http://" then href.data.drop 7
    else href.data
  ⟨rest.takeWhile fun c => c ≠ '/' && c ≠ '?' && c ≠ '#'⟩

/-- Modelled from the claim's wording of the Wikipedia-variant criterion:
an `og:site_name` meta content containing "Wikipedia", or a canonical link
whose href has a host ending in `wikipedia.org`. -/
def spec_is_wikipedia_host (root : Node) : Bool :=
  (root.pnodes.any fun pn =>
    pn.2.isElem && pn.2.tagName = "meta" && attrEq pn.2 "property" "og:site_name" &&
      (match pn.2.attr? "content" with
       | some c => sContains c "Wikipedia"
       | none => false)) ||
  (root.pnodes.any fun pn =>
    pn.2.isElem && pn.2.tagName = "link" && attrEq pn.2 "rel" "canonical" &&
      (match pn.2.attr? "href" with
       | some h => sEnds (urlHost h) "wikipedia.org"
       | none => false))

/-- The amended criterion, as the code has it: the canonical href merely
contains "wikipedia.org" as a substring anywhere. -/
def spec_is_wikipedia_sub (root : Node) : Bool :=
  (root.pnodes.any fun pn =>
    pn.2.isElem && pn.2.tagName = "meta" && attrEq pn.2 "property" "og:site_name" &&
      (match pn.2.attr? "content" with
       | some c => sContains c "Wikipedia"
       | none => false)) ||
  (root.pnodes.any fun pn =>
    pn.2.isElem && pn.2.tagName = "link" && attrEq pn.2 "rel" "canonical" &&
      (match pn.2.attr? "href" with
       | some h => sContains h "wikipedia.org"
       | none => false))

/-- `extract_with_xpath` with the two `include_tables` guarded blocks
removed, for stating what the flag suppresses. -/
def extract_with_xpath_sans_lists (root : Node) (config : ExtractionConfig) : XResult :=
  let is_wiki := is_wikipedia_page root
  let xp := if is_wiki then WIKI_XPATHS else DEFAULT_XPATHS
  let elems := selectDoc root xp.main_content
  let elems := if elems.isEmpty then selectDoc root (tagIs "body") else elems
  match elems with
  | [] => .err (.extractionError "No content elements found")
  | me :: _ =>
      let mpath := me.1
      let content :=
        xpathHeadingsOut is_wiki root mpath xp ++
        xpathParasOut is_wiki root mpath xp ++
        (if config.include_images then xpathImagesOut root mpath xp else "")
      .ok (collapseNl3 (sTrim content))

/-- Does the tree contain an element whose tag is in `UNWANTED_ELEMENTS`? -/
def hasUnwantedElem (n : Node) : Bool :=
  n.pnodes.any fun pn => pn.2.isElem && UNWANTED_ELEMENTS.contains pn.2.tagName

/-- Strict descendant anchors of a node. -/
def anchorsIn (n : Node) : List Node := descElems n fun m => m.tagName = "a"

/-- No descendant anchor of `n` contains another anchor. -/
def noNestedAnchors (n : Node) : Bool :=
  (anchorsIn n).all fun anc => (anchorsIn anc).isEmpty

/-- Anchors of a subtree including its root (proof helper for the
link-density bound). -/
def inclAnchors (n : Node) : List Node :=
  (n.pnodes.filter fun pn => pn.2.isElem && pn.2.tagName = "a").map Prod.snd

/-- Sum of text-node lengths of a subtree (equals `textContent.length`). -/
def tcl (n : Node) : Nat := (n.textNodes.map String.length).sum

/-! ## Concrete documents and configurations used by the theorems -/

def cfg10 : ExtractionConfig :=
  { include_comments := false, include_tables := true, include_links := true,
    include_images := false, min_extracted_size := 10, extract_metadata := false }

def cfg30 : ExtractionConfig :=
  { include_comments := false, include_tables := true, include_links := true,
    include_images := false, min_extracted_size := 30, extract_metadata := false }

def cfg10NoTables : ExtractionConfig :=
  { cfg10 with include_tables := false }

def cfg10NoLinks : ExtractionConfig :=
  { cfg10 with include_links := false }

/-- A plain document whose single paragraph qualifies. -/
def docSimple : Node :=
  .el "html" [] [.el "body" [] [.el "p" [] [.text "This paragraph is long enough to extract."]]]

/-- A document with no `body` element: the structural selector finds no
content element and errors, while the paragraph fallback would succeed. -/
def docNoBody : Node :=
  .el "html" [] [.el "div" [] [.el "p" [] [.text "abcdefghij abcdefghij abcdefghij abcdefg"]]]

/-- A Wikipedia document whose References section is followed by a History
section: paragraph at path `[1,0,0,3]` has nearest preceding heading
"History" but first preceding heading "References". -/
def docWiki : Node :=
  .el "html" []
    [.el "head" [] [.el "meta" [("property", "og:site_name"), ("content", "Wikipedia")] []],
     .el "body" []
       [.el "div" [("id", "mw-content-text")]
         [.el "div" [("class", "mw-parser-output")]
           [.el "h2" [] [.text "References"],
            .el "p" [] [.text "Reference paragraph body text."],
            .el "h2" [] [.text "History"],
            .el "p" [] [.text "History paragraph body text here."]]]]]

/-- A document with a `script` element (for the sanitizer claims). -/
def docScript : Node :=
  .el "html" [] [.el "body" [] [.el "p" [] [.text "Text"], .el "script" [] [.text "alert(1);"]]]

/-- A body whose qualifying paragraph contains an anchor (the claim's
`<a href="https://x.com">a link</a>` example). -/
def bodyWithLink : Node :=
  .el "body" []
    [.el "p" [] [.text "This is a test paragraph with ",
      .el "a" [("href", "https://x.com")] [.text "a link"], .text "."]]

/-- A node whose only h1-h3 heading sits at depth two (not a direct child)
and which has two paragraph descendants. -/
def nodeNestedHeading : Node :=
  .el "div" []
    [.el "div" [] [.el "h2" [] [.text "Title"]],
     .el "p" [] [.text "First paragraph some text."],
     .el "p" [] [.text "Second paragraph some text."]]

/-- A document whose canonical link merely mentions `wikipedia.org` in its
path while its host is `example.com`. -/
def docFakeCanonical : Node :=
  .el "html" []
    [.el "head" []
      [.el "link" [("rel", "canonical"), ("href", "https://example.com/wikipedia.org")] []],
     .el "body" [] []]

/-- A node with nested anchors: the anchor text is counted twice. -/
def nodeNestedAnchors : Node :=
  .el "div" [] [.el "a" [] [.el "a" [] [.text "xx"]]]

/-- A node with one anchor and some non-anchor text. -/
def nodeOneAnchor : Node :=
  .el "div" [] [.el "a" [] [.text "ab"], .text "cd"]

/-- A document containing a list next to a qualifying paragraph. -/
def docWithList : Node :=
  .el "html" []
    [.el "body" []
      [.el "p" [] [.text "A sufficiently long paragraph for output!"],
       .el "ul" [] [.el "li" [] [.text "Item one"], .el "li" [] [.text "Item two"]]]]

/-! ## Claim theorems -/

/-- C4: the sanitizer is idempotent: applying `clean_html` to the result of
`clean_html` yields the same document (the source returns the document
unchanged, so cleaning twice is cleaning once). -/
theorem clean_html_idempotent :
    ∀ (d : Node) (config : ExtractionConfig),
      (match clean_html d config with
       | .ok d2 => clean_html d2 config
       | .err e => .err e) = clean_html d config := by
  intro d config
  rfl

/-- C3: `clean_html` does not remove unwanted-tag elements: on a document
with a `script` element it returns the document unchanged and the `script`
element survives, contradicting the claim that no denylisted tag survives
sanitizing. -/
theorem clean_html_keeps_unwanted_tags :
    clean_html docScript defaultConfig = .ok docScript ∧
    hasUnwantedElem docScript = true := by
  exact ⟨rfl, by decide⟩

/-- C6: with `include_links = true`, the href appended by `get_text_content`
is destroyed again by its own bare-URL stripping pass: the extracted content
contains "a link" but not "(https://x.com)", contradicting the claim (and the
repository's own `test_get_text_content`). -/
theorem get_text_content_strips_href :
    cfg10.include_links = true ∧
    get_text_content bodyWithLink cfg10 = "This is a test paragraph with a link." ∧
    sContains (get_text_content bodyWithLink cfg10) "a link" = true ∧
    sContains (get_text_content bodyWithLink cfg10) "(https://x.com)" = false := by
  refine ⟨rfl, ?_, ?_, ?_⟩ <;> decide

/-- C2 counterexample: on a document with no `body` element the structural
selector strategy returns an extraction error, and `extract_html` returns
that same error instead of attempting the remaining strategies — although the
paragraph fallback (`extract_content`) would have produced qualifying content
of length 40 ≥ `min_extracted_size` = 30. -/
theorem xpath_error_aborts_call :
    extract_with_xpath docNoBody cfg30 = .err (.extractionError "No content elements found") ∧
    extract_html docNoBody cfg30 = .err (.extractionError "No content elements found") ∧
    extract_content docNoBody cfg30 = .ok "abcdefghij abcdefghij abcdefghij abcdefg" ∧
    cfg30.min_extracted_size ≤ ("abcdefghij abcdefghij abcdefghij abcdefg" : String).length := by
  refine ⟨?_, ?_, ?_, ?_⟩ <;> decide

/-- C2 amended: an error raised by the structural selector strategy is not
recovered: `extract_html` propagates it and aborts the whole call; only a
strategy that returns successfully with empty or undersized content falls
through to the next strategy. -/
theorem xpath_error_propagates :
    ∀ (root : Node) (config : ExtractionConfig) (e : TError),
      extract_with_xpath root config = .err e → extract_html root config = .err e := by
  intro root config e h
  simp only [extract_html, h]

/-- Witness for `xpath_error_propagates` at the concrete no-body document. -/
theorem xpath_error_propagates_witness :
    extract_html docNoBody cfg30 = .err (.extractionError "No content elements found") :=
  xpath_error_propagates docNoBody cfg30 (.extractionError "No content elements found")
    (by decide)

/-- C7 counterexample: `score_node` awards the +30 structure bonus for an
h1-h3 heading at any depth; on a node whose only heading is a grandchild the
claim's formula (direct h1-h3 descendant) gives 80 while the code gives 110. -/
theorem score_node_bonus_not_direct :
    score_node nodeNestedHeading defaultConfig = 110 ∧
    spec_score_direct nodeNestedHeading = 80 ∧
    score_node nodeNestedHeading defaultConfig ≠ spec_score_direct nodeNestedHeading := by
  refine ⟨?_, ?_, ?_⟩ <;> decide

/-- C7 amended: `score_node` computes exactly the claim's reference formula
with the heading bonus read as "some h1-h3 descendant at any depth". -/
theorem score_node_matches_formula :
    ∀ (element : Node) (config : ExtractionConfig),
      score_node element config = spec_score element := by
  intro element config
  unfold score_node spec_score
  ring

/-- C8 counterexample: a canonical link whose href contains "wikipedia.org"
only in its path (host `example.com`) makes `is_wikipedia_page` choose the
Wikipedia variant, though the claim's host-suffix criterion rejects it. -/
theorem is_wikipedia_substring_cex :
    is_wikipedia_page docFakeCanonical = true ∧
    spec_is_wikipedia_host docFakeCanonical = false ∧
    urlHost "https://example.com/wikipedia.org" = "example.com" ∧
    sEnds "example.com" "wikipedia.org" = false := by
  refine ⟨?_, ?_, ?_, ?_⟩ <;> decide

/-- C8 amended: the Wikipedia variant is chosen iff some `og:site_name` meta
content contains "Wikipedia" or some canonical link href contains
"wikipedia.org" as a substring anywhere (not: has a host ending in it). -/
theorem is_wikipedia_matches_substring_criterion :
    ∀ root, is_wikipedia_page root = spec_is_wikipedia_sub root := by
  intro root
  simp only [is_wikipedia_page, spec_is_wikipedia_sub, selectDoc, List.any_filter,
    Bool.and_assoc]

/-- C10: with `include_tables = false` the structural selector emits neither
the lists pass nor the tables pass (for every document and config), and on a
concrete document with a list the bullet items appear iff the flag is set. -/
theorem include_tables_gates_lists :
    (∀ (root : Node) (config : ExtractionConfig), config.include_tables = false →
      extract_with_xpath root config = extract_with_xpath_sans_lists root config) ∧
    extract_with_xpath docWithList cfg10 =
      .ok "A sufficiently long paragraph for output!\n\n• Item one\n• Item two" ∧
    extract_with_xpath docWithList cfg10NoTables =
      .ok "A sufficiently long paragraph for output!" ∧
    sContains "A sufficiently long paragraph for output!\n\n• Item one\n• Item two"
      "• Item one" = true ∧
    sContains "A sufficiently long paragraph for output!" "• Item one" = false := by
  refine ⟨?_, by decide, by decide, by decide, by decide⟩
  intro root config h
  simp only [extract_with_xpath, extract_with_xpath_sans_lists, h, if_false,
    Bool.false_eq_true, String.append_empty]

/-- Witness for the universal part of `include_tables_gates_lists`. -/
theorem include_tables_gates_lists_witness :
    extract_with_xpath docWithList cfg10NoTables =
      extract_with_xpath_sans_lists docWithList cfg10NoTables :=
  include_tables_gates_lists.1 docWithList cfg10NoTables (by decide)

theorem extractGate_ok {t : String} {config : ExtractionConfig} {s : String}
    (h : extractGate t config = .ok s) :
    config.min_extracted_size ≤ s.length ∧ s ≠ "" := by
  unfold extractGate at h
  split at h
  · exact nomatch h
  · next hc =>
      injection h with h'
      subst h'
      simp only [Bool.or_eq_true, decide_eq_true_eq, not_or] at hc
      push_neg at hc
      exact ⟨hc.2, hc.1⟩

/-- C1: whenever `extract_html` succeeds, the returned content is non-empty
and at least `min_extracted_size` long: the structural-selector acceptance
test and the final gate enforce the floor on every success path. -/
theorem extract_html_ok_meets_min :
    ∀ (root : Node) (config : ExtractionConfig) (s : String),
      extract_html root config = .ok s →
      config.min_extracted_size ≤ s.length ∧ s ≠ "" := by
  intro root config s h
  unfold extract_html at h
  split at h
  · exact nomatch h
  · split at h
    · next hc =>
        injection h with h'
        subst h'
        simp only [Bool.and_eq_true, decide_eq_true_eq] at hc
        exact ⟨hc.2, hc.1⟩
    · split at h
      · exact nomatch h
      · split at h
        · split at h
          · exact nomatch h
          · split at h
            · exact extractGate_ok h
            · exact extractGate_ok h
        · exact extractGate_ok h

/-- Witness for `extract_html_ok_meets_min` on a document whose single
paragraph qualifies. -/
theorem extract_html_ok_meets_min_witness :
    extract_html docSimple cfg10 = .ok "This paragraph is long enough to extract." ∧
    (cfg10.min_extracted_size ≤ ("This paragraph is long enough to extract." : String).length ∧
      ("This paragraph is long enough to extract." : String) ≠ "") :=
  ⟨by decide, extract_html_ok_meets_min docSimple cfg10 _ (by decide)⟩

/-- C5 counterexample: in `docWiki` the paragraph at path `[1,0,0,3]` follows
the non-matching heading "History" (its nearest preceding heading), yet the
walk returns the first preceding heading "References" of the enclosing scope,
so the paragraph is suppressed and the extracted content is just "History". -/
theorem wiki_skip_not_nearest_cex :
    extract_with_xpath docWiki cfg10 = .ok "History" ∧
    find_preceding_heading_text docWiki [1, 0, 0, 3] = some "References" ∧
    getAt docWiki [1, 0, 0, 2] = some (.el "h2" [] [.text "History"]) ∧
    pathBefore [1, 0, 0, 2] [1, 0, 0, 3] = true ∧
    pathBefore [1, 0, 0, 0] [1, 0, 0, 2] = true ∧
    should_skip_section "History" = false ∧
    sContains "History" "paragraph body" = false := by
  refine ⟨?_, ?_, ?_, ?_, ?_, ?_, ?_⟩ <;> decide

theorem findPrecAux_none (root : Node) (p : List Nat)
    (H : ∀ pn ∈ root.pnodes, ¬(pn.2.isElem = true ∧
      headingTags.contains pn.2.tagName = true ∧ pathBefore pn.1 p = true)) :
    ∀ k, findPrecAux root p k = none := by
  intro k
  induction k with
  | zero => rfl
  | succ k ih =>
      simp only [findPrecAux]
      cases hfind : (selectIn root (p.take k) hSel).find? (fun pn => pathBefore pn.1 p) with
      | some pn =>
          exfalso
          have hmem := List.mem_of_find?_eq_some hfind
          have hpred := List.find?_some hfind
          unfold selectIn at hmem
          obtain ⟨hmem', hcond⟩ := List.mem_filter.mp hmem
          simp only [hSel, tagIn, Bool.and_eq_true, decide_eq_true_eq] at hcond
          exact H pn hmem' ⟨hcond.1.2, hcond.2, hpred⟩
      | none =>
          cases hget : getAt root (p.take k) with
          | none => rfl
          | some par =>
              dsimp only
              split
              · rfl
              · exact ih

theorem findPrecAux_some (root : Node) (p : List Nat) :
    ∀ k t, findPrecAux root p k = some t →
      ∃ pn ∈ root.pnodes, pn.2.isElem = true ∧
        headingTags.contains pn.2.tagName = true ∧ pathBefore pn.1 p = true ∧
        pn.2.textContent = t := by
  intro k
  induction k with
  | zero => intro t h; exact nomatch h
  | succ k ih =>
      intro t h
      simp only [findPrecAux] at h
      cases hfind : (selectIn root (p.take k) hSel).find? (fun pn => pathBefore pn.1 p) with
      | some pn =>
          rw [hfind] at h
          injection h with h'
          have hmem := List.mem_of_find?_eq_some hfind
          have hpred := List.find?_some hfind
          unfold selectIn at hmem
          obtain ⟨hmem', hcond⟩ := List.mem_filter.mp hmem
          simp only [hSel, tagIn, Bool.and_eq_true, decide_eq_true_eq] at hcond
          exact ⟨pn, hmem', hcond.1.2, hcond.2, hpred, h'⟩
      | none =>
          rw [hfind] at h
          cases hget : getAt root (p.take k) with
          | none =>
              rw [hget] at h
              dsimp only at h
              exact nomatch h
          | some par =>
              rw [hget] at h
              dsimp only at h
              split at h
              · exact nomatch h
              · exact ih t h

/-- C5 amended: the skip decision consults a heading that precedes the
element — find_preceding_heading_text returns `none` whenever no heading of
the document precedes the element (so content before the first heading is
never suppressed), and whenever it returns a heading text, that text belongs
to some heading positioned before the element (the first one found in the
enclosing scope, which need not be the nearest preceding heading). -/
theorem find_preceding_heading_consults_preceding :
    ∀ (root : Node) (p : List Nat),
      ((root.pnodes.all fun pn =>
          !(pn.2.isElem && headingTags.contains pn.2.tagName && pathBefore pn.1 p)) = true →
        find_preceding_heading_text root p = none) ∧
      (∀ t, find_preceding_heading_text root p = some t →
        (root.pnodes.any fun pn =>
          pn.2.isElem && headingTags.contains pn.2.tagName && pathBefore pn.1 p &&
            (pn.2.textContent = t)) = true) := by
  intro root p
  constructor
  · intro hAll
    apply findPrecAux_none
    intro pn hmem ⟨h1, h2, h3⟩
    have := List.all_eq_true.mp hAll pn hmem
    simp only [h1, h2, h3, Bool.and_true, Bool.not_true] at this
    exact Bool.false_ne_true this
  · intro t h
    obtain ⟨pn, hmem, h1, h2, h3, h4⟩ := findPrecAux_some root p p.length t h
    refine List.any_eq_true.mpr ⟨pn, hmem, ?_⟩
    simp [h1, h3, h4]
    simpa using h2

/-- Witness for `find_preceding_heading_consults_preceding`: the References
heading of `docWiki` has no preceding heading (part one), and the consulted
heading of the final paragraph is a preceding heading (part two). -/
theorem find_preceding_heading_consults_preceding_witness :
    find_preceding_heading_text docWiki [1, 0, 0, 0] = none ∧
    (docWiki.pnodes.any fun pn =>
      pn.2.isElem && headingTags.contains pn.2.tagName && pathBefore pn.1 [1, 0, 0, 3] &&
        (pn.2.textContent = "References")) = true :=
  ⟨(find_preceding_heading_consults_preceding docWiki [1, 0, 0, 0]).1 (by decide),
   (find_preceding_heading_consults_preceding docWiki [1, 0, 0, 3]).2 "References" (by decide)⟩

theorem foldl_append_length :
    ∀ (l : List String) (init : String),
      (l.foldl (· ++ ·) init).length = init.length + (l.map String.length).sum
  | [], init => by simp
  | s :: l, init => by
      simp only [List.foldl_cons, List.map_cons, List.sum_cons]
      rw [foldl_append_length l (init ++ s), String.length_append]
      omega

theorem tc_len (n : Node) : n.textContent.length = tcl n := by
  unfold Node.textContent tcl
  rw [foldl_append_length]
  simp

theorem pnodesL_textNodes :
    ∀ (cs : NodeList) (i : Nat),
      (NodeList.pnodesL cs i).filterMap
          (fun pn =>
            match pn.2 with
            | .text s => some s
            | .elem _ _ _ => none)
        = cs.toList.flatMap Node.textNodes
  | .nil, _ => by simp [NodeList.pnodesL, NodeList.toList]
  | .cons hd tl, i => by
      simp only [NodeList.pnodesL, NodeList.toList, List.filterMap_append,
        List.flatMap_cons, List.filterMap_map]
      rw [pnodesL_textNodes tl (i + 1)]
      rfl

theorem textNodes_text (s : String) : (Node.text s).textNodes = [s] := rfl

theorem textNodes_elem (t : String) (a : List (String × String)) (cs : NodeList) :
    (Node.elem t a cs).textNodes = cs.toList.flatMap Node.textNodes := by
  unfold Node.textNodes
  simp only [Node.pnodes, List.filterMap_cons]
  exact pnodesL_textNodes cs 0

theorem sum_len_flatMap :
    ∀ (l : List Node),
      ((l.flatMap Node.textNodes).map String.length).sum = (l.map tcl).sum
  | [] => by simp
  | n :: l => by
      simp only [List.flatMap_cons, List.map_append, List.sum_append, List.map_cons,
        List.sum_cons]
      rw [sum_len_flatMap l]
      rfl

theorem tcl_elem (t : String) (a : List (String × String)) (cs : NodeList) :
    tcl (.elem t a cs) = (cs.toList.map tcl).sum := by
  unfold tcl
  rw [textNodes_elem, sum_len_flatMap]
  rfl

theorem anchorsIn_text (s : String) : anchorsIn (.text s) = [] := rfl

theorem pnodesL_path_ne_nil :
    ∀ (cs : NodeList) (i : Nat) (pn : List Nat × Node),
      pn ∈ NodeList.pnodesL cs i → pn.1 ≠ []
  | .nil, _, _ => by simp [NodeList.pnodesL]
  | .cons hd tl, i, pn => by
      intro hmem
      simp only [NodeList.pnodesL, List.mem_append] at hmem
      rcases hmem with h | h
      · obtain ⟨q, _, rfl⟩ := List.mem_map.mp h
        exact List.cons_ne_nil _ _
      · exact pnodesL_path_ne_nil tl (i + 1) pn h

theorem pnodesL_anchors :
    ∀ (cs : NodeList) (i : Nat),
      ((NodeList.pnodesL cs i).filter
          (fun pn => pn.1 ≠ [] && pn.2.isElem && (pn.2.tagName = "a"))).map Prod.snd
        = cs.toList.flatMap inclAnchors
  | .nil, _ => by simp [NodeList.pnodesL, NodeList.toList]
  | .cons hd tl, i => by
      simp only [NodeList.pnodesL, NodeList.toList, List.filter_append, List.map_append,
        List.flatMap_cons, List.filter_map, List.map_map]
      rw [pnodesL_anchors tl (i + 1)]
      rfl

theorem anchorsIn_elem (t : String) (a : List (String × String)) (cs : NodeList) :
    anchorsIn (.elem t a cs) = cs.toList.flatMap inclAnchors := by
  unfold anchorsIn descElems
  simp only [Node.pnodes, List.filter_cons]
  rw [if_neg (by simp)]
  exact pnodesL_anchors cs 0

theorem inclAnchors_eq :
    ∀ n : Node,
      inclAnchors n = (if n.isElem && (n.tagName = "a") then [n] else []) ++ anchorsIn n := by
  intro n
  cases n with
  | text s => rfl
  | elem t a cs =>
      have hfilter : (NodeList.pnodesL cs 0).filter
            (fun pn => pn.2.isElem && (pn.2.tagName = "a"))
          = (NodeList.pnodesL cs 0).filter
            (fun pn => pn.1 ≠ [] && pn.2.isElem && (pn.2.tagName = "a")) := by
        apply List.filter_congr
        intro pn hmem
        have hne := pnodesL_path_ne_nil cs 0 pn hmem
        simp [hne]
      have hanch : anchorsIn (Node.elem t a cs)
          = ((NodeList.pnodesL cs 0).filter
              (fun pn => pn.1 ≠ [] && pn.2.isElem && (pn.2.tagName = "a"))).map Prod.snd := by
        unfold anchorsIn descElems
        simp only [Node.pnodes, List.filter_cons]
        rw [if_neg (by simp)]
      unfold inclAnchors
      simp only [Node.pnodes, List.filter_cons]
      rw [hanch, ← hfilter]
      split
      · next hc => simp
      · next hc => simp

mutual
theorem inclAnchors_sum_le :
    ∀ (n : Node), (∀ d ∈ inclAnchors n, anchorsIn d = []) →
      ((inclAnchors n).map tcl).sum ≤ tcl n
  | .text s => fun _ => by
      have h0 : inclAnchors (Node.text s) = [] := rfl
      rw [h0]
      simp
  | .elem t a cs => fun h => by
      rw [inclAnchors_eq]
      split
      · next hc =>
          have hn : anchorsIn (Node.elem t a cs) = [] := by
            apply h
            rw [inclAnchors_eq, if_pos hc]
            exact List.mem_append_left _ (List.mem_singleton_self _)
          rw [hn]
          simp
      · next hc =>
          rw [List.nil_append, anchorsIn_elem, tcl_elem]
          refine inclAnchorsL_sum_le cs ?_
          intro d hd
          apply h
          rw [inclAnchors_eq, if_neg hc, List.nil_append, anchorsIn_elem]
          exact hd
theorem inclAnchorsL_sum_le :
    ∀ (cs : NodeList), (∀ d ∈ cs.toList.flatMap inclAnchors, anchorsIn d = []) →
      ((cs.toList.flatMap inclAnchors).map tcl).sum ≤ (cs.toList.map tcl).sum
  | .nil => fun _ => by simp [NodeList.toList]
  | .cons hd tl => fun h => by
      simp only [NodeList.toList, List.flatMap_cons, List.map_append, List.sum_append,
        List.map_cons, List.sum_cons]
      have h1 := inclAnchors_sum_le hd (fun d hd' =>
        h d (by
          simp only [NodeList.toList, List.flatMap_cons, List.mem_append]
          exact Or.inl hd'))
      have h2 := inclAnchorsL_sum_le tl (fun d hd' =>
        h d (by
          simp only [NodeList.toList, List.flatMap_cons, List.mem_append]
          exact Or.inr hd'))
      exact Nat.add_le_add h1 h2
end

theorem anchorsIn_sum_le_tcl (n : Node) (hnn : noNestedAnchors n = true) :
    ((anchorsIn n).map tcl).sum ≤ tcl n := by
  cases n with
  | text s => simp [anchorsIn_text]
  | elem t a cs =>
      rw [anchorsIn_elem, tcl_elem]
      apply inclAnchorsL_sum_le
      intro d hd
      have hdmem : d ∈ anchorsIn (Node.elem t a cs) := by
        rw [anchorsIn_elem]; exact hd
      have := List.all_eq_true.mp hnn d hdmem
      simpa [List.isEmpty_iff] using this

/-- C9 counterexample: with nested anchors (as the DOM can contain, e.g. via
SVG links) the anchor text is counted once per enclosing anchor, so the link
density of a node with nonzero text can exceed 1. -/
theorem link_density_above_one :
    (Node.textContent nodeNestedAnchors).length = 2 ∧
    calculate_link_density nodeNestedAnchors = 2 ∧
    ¬(calculate_link_density nodeNestedAnchors ≤ 1) := by
  refine ⟨by decide, by decide, by decide⟩

/-- C9 amended: `calculate_link_density` is nonnegative, is exactly 0 for
zero total text, and is at most 1 for nonzero-text nodes whose descendant
anchors are not nested inside one another (nested anchors can exceed 1). -/
theorem link_density_bounds :
    ∀ n : Node,
      0 ≤ calculate_link_density n ∧
      (n.textContent.length = 0 → calculate_link_density n = 0) ∧
      (noNestedAnchors n = true → n.textContent.length ≠ 0 →
        calculate_link_density n ≤ 1) := by
  intro n
  refine ⟨?_, ?_, ?_⟩
  · simp only [calculate_link_density]
    split
    · exact le_refl 0
    · exact div_nonneg (by positivity) (by positivity)
  · intro h
    simp only [calculate_link_density]
    simp [h]
  · intro hnn ht
    simp only [calculate_link_density]
    rw [if_neg ht]
    have hpos : (0 : ℚ) < (n.textContent.length : ℚ) := by
      exact_mod_cast Nat.pos_of_ne_zero ht
    rw [div_le_one hpos]
    have hbound :
        ((descElems n fun m => m.tagName = "a").map (fun l => l.textContent.length)).sum
          ≤ n.textContent.length := by
      have hmapeq :
          (descElems n fun m => m.tagName = "a").map (fun l => l.textContent.length)
            = (anchorsIn n).map tcl := by
        apply List.map_congr_left
        intro d _
        exact tc_len d
      rw [hmapeq, tc_len]
      exact anchorsIn_sum_le_tcl n hnn
    exact_mod_cast hbound

/-- Witness for `link_density_bounds` at a node with one anchor and at an
empty node. -/
theorem link_density_bounds_witness :
    calculate_link_density nodeOneAnchor ≤ 1 ∧
    0 ≤ calculate_link_density nodeOneAnchor ∧
    calculate_link_density (Node.el "div" [] []) = 0 :=
  ⟨(link_density_bounds nodeOneAnchor).2.2 (by decide) (by decide),
   (link_density_bounds nodeOneAnchor).1,
   (link_density_bounds (Node.el "div" [] [])).2.1 (by decide)⟩
